import Mathlib

/-!
# Verification of the element-extraction and annotation-rendering engine

Shallow embedding of the core of `src/puppeteer.py`:

* the accessibility snapshot is modelled as a tree of `RawNode` records
  (one per XML `<node>` element, attributes as optional strings, children in
  document order);
* `extract_coordinates`, `get_center_coordinates`, `get_element_name`,
  `is_interactive` and the element loop of `get_ui_elements` are translated
  function by function;
* Python's unbounded `int` is `ℤ` (regex captures are `ℕ`), Python floor
  division `//` is `Int.fdiv`, the float scale factor is modelled as `ℚ`
  with Python's `int()` truncation toward zero;
* Python exceptions are `Except PyErr`: `re.search(pattern, None)` and
  `"".join` over a `None` item raise `TypeError`; the `except Exception`
  wrapper of `get_ui_elements` converts any error to `RuntimeError`.
-/

/-- Python exception kinds relevant to the extraction pipeline. -/
inductive PyErr where
  | typeError
  | runtimeError
deriving DecidableEq, Repr

/-- The XML attributes the pipeline reads from a `<node>` element.
`node.get(k)` returns `None` when the attribute is absent, hence
`Option String` for every field. -/
structure NodeAttrs where
  className : Option String := none
  text : Option String := none
  contentDesc : Option String := none
  bounds : Option String := none
  clickable : Option String := none
  focusable : Option String := none
  visibleToUser : Option String := none
  enabled : Option String := none
deriving DecidableEq, Repr

/-- A node of the parsed accessibility hierarchy: its attributes and its
child elements in document order.  The snapshot document is the root
`RawNode` (the `<hierarchy>` element); every element below it is a
`<node>`. -/
inductive RawNode where
  | mk (attrs : NodeAttrs) (children : List RawNode)

/-- Attribute record of a node. -/
def RawNode.attrs : RawNode → NodeAttrs
  | .mk a _ => a

/-- Immediate children of a node (iteration `for n in node`). -/
def RawNode.children : RawNode → List RawNode
  | .mk _ c => c

/-- `BoundingBox` dataclass: integer quadruple (x1, y1, x2, y2). -/
structure BoundingBox where
  x1 : ℤ
  y1 : ℤ
  x2 : ℤ
  y2 : ℤ
deriving DecidableEq, Repr

/-- `CenterCord` dataclass: integer pair (x, y). -/
structure CenterCord where
  x : ℤ
  y : ℤ
deriving DecidableEq, Repr

/-- `ElementNode` dataclass: the durable output unit of extraction. -/
structure ElementNode where
  name : String
  coordinates : CenterCord
  bounding_box : BoundingBox
  class_name : String
  clickable : Bool
  focusable : Bool
deriving DecidableEq, Repr

/-- `INTERACTIVE_CLASSES`: the registry of interactive widget class names. -/
def INTERACTIVE_CLASSES : List String :=
  ["android.widget.Button",
   "android.widget.ImageButton",
   "android.widget.EditText",
   "android.widget.CheckBox",
   "android.widget.RadioButton",
   "android.widget.Switch",
   "android.widget.ToggleButton",
   "android.widget.Spinner",
   "android.widget.SeekBar",
   "android.widget.RatingBar",
   "android.widget.TabHost",
   "android.widget.NumberPicker",
   "android.support.v7.widget.RecyclerView",
   "androidx.recyclerview.widget.RecyclerView",
   "android.widget.ListView",
   "android.widget.GridView",
   "android.widget.ScrollView",
   "android.widget.HorizontalScrollView",
   "androidx.viewpager.widget.ViewPager",
   "androidx.viewpager2.widget.ViewPager2"]

/-! ## The bounds regex

`re.search(r'\[(\d+),(\d+)]\[(\d+),(\d+)]', bounds)`: leftmost match of
the literal pattern `[d+,d+][d+,d+]`.  Since each greedy `\d+` group is
followed by a non-digit literal, the regex engine always captures a
maximal digit run, so the match is reproduced by a deterministic
maximal-munch scan tried at each start position from the left. -/

/-- Numeric value of a digit string (the `int(...)` applied to a capture). -/
def natOfDigits (ds : List Char) : Nat :=
  ds.foldl (fun acc c => 10 * acc + (c.toNat - 48)) 0

/-- Match one `(\d+)` group: one or more digits, maximal munch. -/
def parseNum (cs : List Char) : Option (Nat × List Char) :=
  let ds := cs.takeWhile Char.isDigit
  if ds.isEmpty then none
  else some (natOfDigits ds, cs.dropWhile Char.isDigit)

/-- Match one literal character of the pattern. -/
def expectChar (c : Char) : List Char → Option (List Char)
  | [] => none
  | x :: rest => if x = c then some rest else none

/-- Try to match `[(\d+),(\d+)]\[(\d+),(\d+)]` at the start of `cs`,
returning the four integer captures. -/
def matchBoundsAt (cs : List Char) : Option (Nat × Nat × Nat × Nat) := do
  let cs ← expectChar '[' cs
  let (a, cs) ← parseNum cs
  let cs ← expectChar ',' cs
  let (b, cs) ← parseNum cs
  let cs ← expectChar ']' cs
  let cs ← expectChar '[' cs
  let (c, cs) ← parseNum cs
  let cs ← expectChar ',' cs
  let (d, cs) ← parseNum cs
  let _ ← expectChar ']' cs
  pure (a, b, c, d)

/-- `re.search`: try the pattern at every start position, leftmost first. -/
def searchBounds : List Char → Option (Nat × Nat × Nat × Nat)
  | [] => none
  | c :: rest =>
    match matchBoundsAt (c :: rest) with
    | some r => some r
    | none => searchBounds rest

/-- `extract_coordinates(node)`: reads the `bounds` attribute and runs the
regex search.  A missing attribute makes `re.search` receive `None` and
raise `TypeError`; a present but non-matching string returns `None`. -/
def extract_coordinates (node : RawNode) : Except PyErr (Option (Nat × Nat × Nat × Nat)) :=
  match node.attrs.bounds with
  | none => .error .typeError
  | some s => .ok (searchBounds s.data)

/-- `get_center_coordinates(coordinates)`: Python `//` is floor division,
i.e. `Int.fdiv`. -/
def get_center_coordinates : ℤ × ℤ × ℤ × ℤ → ℤ × ℤ
  | (x1, y1, x2, y2) => ((x1 + x2).fdiv 2, (y1 + y2).fdiv 2)

/-! ## Name resolution -/

/-- Python truthiness of an optional string: `None` and `""` are falsy. -/
def pyTruthy : Option String → Bool
  | none => false
  | some s => !(s == "")

/-- Python `a or b` on optional strings: `a` if truthy, else `b`. -/
def pyOr (a b : Option String) : Option String :=
  if pyTruthy a then a else b

/-- `"".join(items)`: concatenates the items in order; any `None` item is
not a `str` and raises `TypeError`. -/
def joinItems : List (Option String) → Except PyErr String
  | [] => .ok ""
  | none :: _ => .error .typeError
  | some s :: rest =>
    match joinItems rest with
    | .error e => .error e
    | .ok t => .ok (s ++ t)

/-- Tail of `s` after the last dot: Python `s.split('.')[-1]`. -/
def lastSegGo : List Char → List Char → List Char
  | [], acc => acc.reverse
  | c :: rest, acc =>
    if c = '.' then lastSegGo rest []
    else lastSegGo rest (c :: acc)

/-- `s.split('.')[-1]` as a string operation. -/
def lastSeg (s : String) : String :=
  String.mk (lastSegGo s.data [])

/-- `get_element_name(node)`: join of `text or content-desc` over the
immediate `TextView` children, else the node's own `content-desc`, else
its own `text`, else the last dot-segment of its class (class missing
defaults to `"Unknown"`).  The join raises `TypeError` when a `TextView`
child has neither `text` nor `content-desc`. -/
def get_element_name (node : RawNode) : Except PyErr String :=
  match joinItems
      ((node.children.filter
          (fun n => n.attrs.className == some "android.widget.TextView")).map
        (fun n => pyOr n.attrs.text n.attrs.contentDesc)) with
  | .error e => .error e
  | .ok joined =>
    match pyOr (pyOr (some joined) node.attrs.contentDesc) node.attrs.text with
    | some s =>
      .ok (if s == "" then lastSeg (node.attrs.className.getD "Unknown") else s)
    | none => .ok (lastSeg (node.attrs.className.getD "Unknown"))

/-- `is_interactive(node)`: `focusable == "true"` or `clickable == "true"`
or the class attribute is a member of `INTERACTIVE_CLASSES` (a missing
class attribute is `None`, never a member). -/
def is_interactive (node : RawNode) : Bool :=
  decide (node.attrs.focusable = some "true") ||
  decide (node.attrs.clickable = some "true") ||
  (match node.attrs.className with
   | some c => decide (c ∈ INTERACTIVE_CLASSES)
   | none => false)

/-! ## The extraction loop of `get_ui_elements` -/

/-- One iteration of the element loop for one node: skip non-interactive
nodes, run `extract_coordinates` (skipping on a `None` result), resolve the
name (skipping when it is empty), compute the center, and build the
`ElementNode` exactly as the constructor call does. -/
def node_step (node : RawNode) : Except PyErr (Option ElementNode) :=
  if is_interactive node then
    match extract_coordinates node with
    | .error e => .error e
    | .ok none => .ok none
    | .ok (some (x1, y1, x2, y2)) =>
      match get_element_name node with
      | .error e => .error e
      | .ok name =>
        if name == "" then .ok none
        else
          let center := get_center_coordinates ((x1 : ℤ), (y1 : ℤ), (x2 : ℤ), (y2 : ℤ))
          .ok (some
            { name := name
              coordinates := { x := center.1, y := center.2 }
              bounding_box := { x1 := (x1 : ℤ), y1 := (y1 : ℤ), x2 := (x2 : ℤ), y2 := (y2 : ℤ) }
              class_name := node.attrs.className.getD ""
              clickable := decide (node.attrs.clickable = some "true")
              focusable := decide (node.attrs.focusable = some "true") })
  else .ok none

/-- The `for node in nodes` loop: elements appended in traversal order, the
first raised exception aborting the whole loop. -/
def get_ui_elements_core : List RawNode → Except PyErr (List ElementNode)
  | [] => .ok []
  | n :: rest =>
    match node_step n with
    | .error e => .error e
    | .ok none => get_ui_elements_core rest
    | .ok (some el) =>
      match get_ui_elements_core rest with
      | .error e => .error e
      | .ok l => .ok (el :: l)

mutual

/-- Document-order (preorder) listing of an element and its descendants. -/
def preorder : RawNode → List RawNode
  | .mk a cs => .mk a cs :: preorderList cs

/-- Document-order listing of the elements of a forest. -/
def preorderList : List RawNode → List RawNode
  | [] => []
  | n :: rest => preorder n ++ preorderList rest

end

/-- `findall('.//node[@visible-to-user="true"][@enabled="true"]')`: every
descendant of the document root whose two attributes are both `"true"`,
in document order. -/
def findNodes (root : RawNode) : List RawNode :=
  (preorderList root.children).filter
    (fun n => n.attrs.visibleToUser == some "true" && n.attrs.enabled == some "true")

/-- `get_ui_elements`, starting from the parsed snapshot tree: run the loop
over the selected nodes; the surrounding `except Exception` re-raises any
error as `RuntimeError`. -/
def get_ui_elements (root : RawNode) : Except PyErr (List ElementNode) :=
  match get_ui_elements_core (findNodes root) with
  | .error _ => .error .runtimeError
  | .ok l => .ok l

/-- The `enumerate(elements)` of `get_ui_elements_info`: each element paired
with its index. -/
def elements_info (l : List ElementNode) : List (Nat × ElementNode) :=
  l.enum

/-- The element (if any) a node contributes to the output when its
iteration does not raise. -/
def stepResult (n : RawNode) : Option ElementNode :=
  match node_step n with
  | .ok o => o
  | .error _ => none

/-! ## Rendering geometry of `draw_annotation` -/

/-- Python `int()` applied to a (rational-valued) float: truncation toward
zero. -/
def pyInt (q : ℚ) : ℤ :=
  if q < 0 then -⌊-q⌋ else ⌊q⌋

/-- The `adjusted_box` of `draw_annotation`: each coordinate multiplied by
`scale`, converted with `int()`, then shifted by `padding`. -/
def adjusted_box (b : BoundingBox) (scale : ℚ) (padding : ℤ) : BoundingBox :=
  { x1 := pyInt ((b.x1 : ℚ) * scale) + padding
    y1 := pyInt ((b.y1 : ℚ) * scale) + padding
    x2 := pyInt ((b.x2 : ℚ) * scale) + padding
    y2 := pyInt ((b.y2 : ℚ) * scale) + padding }

/-- The spec's wording of `scale_and_translate`, for comparison with
`adjusted_box`: multiply each coordinate by the scale factor, floor the
result to an integer, add the padding. -/
def spec_scale_and_translate (b : BoundingBox) (scale : ℚ) (pad : ℤ) : BoundingBox :=
  { x1 := ⌊(b.x1 : ℚ) * scale⌋ + pad
    y1 := ⌊(b.y1 : ℚ) * scale⌋ + pad
    x2 := ⌊(b.x2 : ℚ) * scale⌋ + pad
    y2 := ⌊(b.y2 : ℚ) * scale⌋ + pad }

/-- The label rectangle of `draw_annotation`, as a function of the adjusted
box corner `(left, top)`, the measured label size and the canvas width:
`label_x1 = max(left, 0)`, `label_y1 = max(top - label_height - 4, 0)`,
`label_x2 = min(label_x1 + label_width + 4, width - 1)`,
`label_y2 = label_y1 + label_height + 4`. -/
def label_rect (left top label_width label_height width : ℤ) : BoundingBox :=
  { x1 := max left 0
    y1 := max (top - label_height - 4) 0
    x2 := min (max left 0 + label_width + 4) (width - 1)
    y2 := max (top - label_height - 4) 0 + label_height + 4 }

/-! ## Helper lemmas about the extraction loop -/

/-- A node whose bounds search fails (without raising) is skipped by the
loop, whether or not it is interactive. -/
theorem node_step_of_extract_none {n : RawNode}
    (h : extract_coordinates n = Except.ok none) :
    node_step n = Except.ok none := by
  unfold node_step
  split
  · simp [h]
  · rfl

/-- Dropping a skipped node from the processed list does not change the
loop's outcome. -/
theorem core_skip {n : RawNode} (h : node_step n = Except.ok none)
    (pre post : List RawNode) :
    get_ui_elements_core (pre ++ n :: post) = get_ui_elements_core (pre ++ post) := by
  induction pre with
  | nil => simp [get_ui_elements_core, h]
  | cons p pre ih =>
    simp only [List.cons_append, get_ui_elements_core, List.append_eq]
    rw [ih]

/-- If any processed node raises, the whole loop raises. -/
theorem core_error_of_mem {n : RawNode} {e : PyErr} :
    ∀ {nodes : List RawNode}, n ∈ nodes → node_step n = Except.error e →
      ∃ e', get_ui_elements_core nodes = Except.error e'
  | m :: rest, hmem, hstep => by
    rcases List.mem_cons.mp hmem with rfl | htail
    · exact ⟨e, by simp [get_ui_elements_core, hstep]⟩
    · obtain ⟨e', he'⟩ := core_error_of_mem htail hstep
      match hm : node_step m with
      | .error e2 => exact ⟨e2, by simp [get_ui_elements_core, hm]⟩
      | .ok none => exact ⟨e', by simp [get_ui_elements_core, hm, he']⟩
      | .ok (some el) => exact ⟨e', by simp [get_ui_elements_core, hm, he']⟩

/-- A successful loop returns exactly the per-node results, in traversal
order. -/
theorem core_ok_filterMap :
    ∀ {nodes : List RawNode} {l : List ElementNode},
      get_ui_elements_core nodes = Except.ok l → l = nodes.filterMap stepResult
  | [], l, h => by
    simp only [get_ui_elements_core, Except.ok.injEq] at h
    simp [← h]
  | n :: rest, l, h => by
    simp only [get_ui_elements_core] at h
    match hn : node_step n with
    | .error e => rw [hn] at h; exact absurd h (by simp)
    | .ok none =>
      rw [hn] at h
      simpa [List.filterMap_cons, stepResult, hn] using core_ok_filterMap h
    | .ok (some el) =>
      rw [hn] at h
      match hr : get_ui_elements_core rest with
      | .error e => rw [hr] at h; exact absurd h (by simp)
      | .ok l' =>
        rw [hr] at h
        simp only [Except.ok.injEq] at h
        simpa [List.filterMap_cons, stepResult, hn, ← h]
          using core_ok_filterMap hr

/-- Every element the loop emits carries the parsed bounds verbatim and the
floor-average center computed from them. -/
theorem node_step_some_shape {n : RawNode} {e : ElementNode}
    (h : node_step n = Except.ok (some e)) :
    ∃ x1 y1 x2 y2 : Nat,
      e.bounding_box =
        { x1 := (x1 : ℤ), y1 := (y1 : ℤ), x2 := (x2 : ℤ), y2 := (y2 : ℤ) } ∧
      e.coordinates =
        { x := ((x1 : ℤ) + (x2 : ℤ)).fdiv 2, y := ((y1 : ℤ) + (y2 : ℤ)).fdiv 2 } := by
  unfold node_step at h
  split at h
  · split at h
    · exact absurd h (by simp)
    · exact absurd h (by simp)
    · rename_i x1 y1 x2 y2 heq
      split at h
      · exact absurd h (by simp)
      · split at h
        · exact absurd h (by simp)
        · simp only [Except.ok.injEq, Option.some.injEq] at h
          exact ⟨x1, y1, x2, y2, by rw [← h], by rw [← h]; rfl⟩
  · exact absurd h (by simp)

/-- Every element of a successful loop result was emitted by some node's
iteration. -/
theorem core_mem_of_ok :
    ∀ {nodes : List RawNode} {l : List ElementNode} {e : ElementNode},
      get_ui_elements_core nodes = Except.ok l → e ∈ l →
      ∃ n, node_step n = Except.ok (some e)
  | [], l, e, h, hmem => by
    simp only [get_ui_elements_core, Except.ok.injEq] at h
    rw [← h] at hmem
    exact absurd hmem (by simp)
  | n :: rest, l, e, h, hmem => by
    simp only [get_ui_elements_core] at h
    match hn : node_step n with
    | .error e2 => rw [hn] at h; exact absurd h (by simp)
    | .ok none => rw [hn] at h; exact core_mem_of_ok h hmem
    | .ok (some el) =>
      rw [hn] at h
      match hr : get_ui_elements_core rest with
      | .error e2 => rw [hr] at h; exact absurd h (by simp)
      | .ok l' =>
        rw [hr] at h
        simp only [Except.ok.injEq] at h
        rw [← h] at hmem
        rcases List.mem_cons.mp hmem with rfl | htail
        · exact ⟨n, hn⟩
        · exact core_mem_of_ok hr htail

/-- A successful extraction is a successful loop over the selected nodes. -/
theorem get_ui_elements_ok {root : RawNode} {l : List ElementNode}
    (h : get_ui_elements root = Except.ok l) :
    get_ui_elements_core (findNodes root) = Except.ok l := by
  unfold get_ui_elements at h
  match hc : get_ui_elements_core (findNodes root) with
  | .error e => rw [hc] at h; exact absurd h (by simp)
  | .ok l' => rw [hc] at h; simp only [Except.ok.injEq] at h; rw [h]

/-- The floor average of two integers lies between them. -/
theorem fdiv_two_between (a b : ℤ) :
    min a b ≤ (a + b).fdiv 2 ∧ (a + b).fdiv 2 ≤ max a b := by
  rw [Int.fdiv_eq_ediv _ (by norm_num)]
  omega

/-- Floor division by two agrees with the rational floor. -/
theorem fdiv_two_eq_floor (a : ℤ) : a.fdiv 2 = ⌊(a : ℚ) / 2⌋ := by
  rw [Int.fdiv_eq_ediv _ (by norm_num)]
  have h := Rat.floor_intCast_div_natCast a 2
  push_cast at h
  rw [h]

/-- A resolved name is either the class-name fallback or a non-empty
string taken from text/description data. -/
theorem get_element_name_cases {n : RawNode} {s : String}
    (h : get_element_name n = Except.ok s) :
    s = lastSeg (n.attrs.className.getD "Unknown") ∨ s ≠ "" := by
  unfold get_element_name at h
  split at h
  · exact absurd h (by simp)
  · split at h
    · rename_i s' heq
      simp only [Except.ok.injEq] at h
      by_cases hs : s' = ""
      · left
        rw [← h]
        simp [hs]
      · right
        rw [← h]
        simp [hs]
    · simp only [Except.ok.injEq] at h
      exact Or.inl h.symm

/-! ## Concrete snapshot fixtures -/

/-- An ordinary interactive button node with well-formed bounds. -/
def c1Good : RawNode :=
  .mk { className := some "android.widget.Button", bounds := some "[0,0][10,10]",
        visibleToUser := some "true", enabled := some "true" } []

/-- An interactive node whose `bounds` attribute is missing. -/
def c1Missing : RawNode :=
  .mk { className := some "android.widget.Button",
        visibleToUser := some "true", enabled := some "true" } []

/-- An interactive node whose `bounds` string does not match the pattern. -/
def c1Oops : RawNode :=
  .mk { className := some "android.widget.Button", bounds := some "oops",
        visibleToUser := some "true", enabled := some "true" } []

/-- Snapshot holding one good node and one node with missing bounds. -/
def c1Root : RawNode := .mk {} [c1Good, c1Missing]

/-- The same snapshot without the missing-bounds node. -/
def c1GoodRoot : RawNode := .mk {} [c1Good]

/-- The element extracted from `c1Good`. -/
def c1GoodElem : ElementNode :=
  { name := "Button", coordinates := { x := 5, y := 5 },
    bounding_box := { x1 := 0, y1 := 0, x2 := 10, y2 := 10 },
    class_name := "android.widget.Button", clickable := false, focusable := false }

/-- C1 counterexample: a snapshot containing a qualifying node and a node
with a missing `bounds` attribute makes the whole extraction call fail
(the missing attribute reaches `re.search` as `None`, raising `TypeError`,
re-raised as `RuntimeError`), instead of skipping only that node — the
same snapshot without the offending node extracts the other node fine. -/
theorem missing_bounds_fails_whole_extraction :
    get_ui_elements c1Root = Except.error PyErr.runtimeError ∧
    get_ui_elements c1GoodRoot = Except.ok [c1GoodElem] :=
  ⟨rfl, rfl⟩

/-- C1 (amended): a node whose `bounds` attribute is present but does not
match the pattern is skipped with every other node unaffected, but a node
with a missing `bounds` attribute that is interactive and selected makes
the whole extraction call fail with `RuntimeError`. -/
theorem bounds_error_handling_amended :
    (∀ (pre post : List RawNode) (n : RawNode) (s : String),
       n.attrs.bounds = some s → searchBounds s.data = none →
       get_ui_elements_core (pre ++ n :: post) = get_ui_elements_core (pre ++ post)) ∧
    (∀ (root : RawNode) (n : RawNode),
       n ∈ findNodes root → is_interactive n = true → n.attrs.bounds = none →
       get_ui_elements root = Except.error PyErr.runtimeError) := by
  constructor
  · intro pre post n s hb hs
    apply core_skip
    apply node_step_of_extract_none
    unfold extract_coordinates
    simp [hb, hs]
  · intro root n hmem hint hb
    have hextract : extract_coordinates n = Except.error PyErr.typeError := by
      unfold extract_coordinates
      rw [hb]
    have hstep : node_step n = Except.error PyErr.typeError := by
      unfold node_step
      simp [hint, hextract]
    obtain ⟨e', he'⟩ := core_error_of_mem hmem hstep
    unfold get_ui_elements
    rw [he']

/-- C1 amended witness: skipping a concrete non-matching node between
concrete neighbours. -/
theorem bounds_error_handling_amended_witness :
    get_ui_elements_core [c1Good, c1Oops] = get_ui_elements_core [c1Good] :=
  bounds_error_handling_amended.1 [c1Good] [] c1Oops "oops" rfl rfl

/-- A layout node whose only child is a `TextView` with neither `text` nor
`content-desc`. -/
def c2Node : RawNode :=
  .mk { className := some "android.widget.LinearLayout", bounds := some "[0,0][10,10]",
        clickable := some "true", visibleToUser := some "true", enabled := some "true" }
     [.mk { className := some "android.widget.TextView" } []]

/-- Snapshot holding only `c2Node` (its child is not selected: it is not
marked visible/enabled). -/
def c2Root : RawNode := .mk {} [c2Node]

/-- C2 (code_bug): name resolution CAN raise.  When an immediate `TextView`
child has neither `text` nor `content-desc`, the comprehension yields
`None` and `"".join` raises `TypeError` instead of contributing an empty
string, and the surrounding extraction call fails with `RuntimeError`. -/
theorem textview_child_without_text_raises :
    get_element_name c2Node = Except.error PyErr.typeError ∧
    get_ui_elements c2Root = Except.error PyErr.runtimeError :=
  ⟨rfl, rfl⟩

/-- An interactive node with order-reversed bounds `[100,200][40,60]`. -/
def c3Node : RawNode :=
  .mk { className := some "android.widget.Button", bounds := some "[100,200][40,60]",
        visibleToUser := some "true", enabled := some "true" } []

/-- Snapshot holding only `c3Node`. -/
def c3Root : RawNode := .mk {} [c3Node]

/-- The element extracted from `c3Node`: its box violates x1 < x2, y1 < y2. -/
def c3Elem : ElementNode :=
  { name := "Button", coordinates := { x := 70, y := 130 },
    bounding_box := { x1 := 100, y1 := 200, x2 := 40, y2 := 60 },
    class_name := "android.widget.Button", clickable := false, focusable := false }

/-- C3 counterexample: a node with order-reversed bounds is NOT rejected:
it reaches the output list with x1 > x2 and y1 > y2 — no x1 < x2, y1 < y2
validation exists anywhere in the pipeline. -/
theorem reversed_bounds_reach_output :
    get_ui_elements c3Root = Except.ok [c3Elem] ∧
    ¬(c3Elem.bounding_box.x1 < c3Elem.bounding_box.x2) ∧
    ¬(c3Elem.bounding_box.y1 < c3Elem.bounding_box.y2) :=
  ⟨rfl, by decide, by decide⟩

/-- C3 (amended): the regex only ever captures digit runs, so every
coordinate of every output bounding box is nonnegative, but no ordering
constraint between the corners is checked or enforced. -/
theorem output_coords_nonneg :
    ∀ (root : RawNode) (l : List ElementNode) (e : ElementNode),
      get_ui_elements root = Except.ok l → e ∈ l →
      0 ≤ e.bounding_box.x1 ∧ 0 ≤ e.bounding_box.y1 ∧
      0 ≤ e.bounding_box.x2 ∧ 0 ≤ e.bounding_box.y2 := by
  intro root l e hok hmem
  obtain ⟨n, hn⟩ := core_mem_of_ok (get_ui_elements_ok hok) hmem
  obtain ⟨x1, y1, x2, y2, hbox, hcoord⟩ := node_step_some_shape hn
  rw [hbox]
  exact ⟨Int.natCast_nonneg _, Int.natCast_nonneg _, Int.natCast_nonneg _,
    Int.natCast_nonneg _⟩

/-- A well-formed interactive node with bounds `[1,2][11,22]`. -/
def c3wNode : RawNode :=
  .mk { className := some "android.widget.Button", bounds := some "[1,2][11,22]",
        visibleToUser := some "true", enabled := some "true" } []

/-- Snapshot holding only `c3wNode`. -/
def c3wRoot : RawNode := .mk {} [c3wNode]

/-- The element extracted from `c3wNode`. -/
def c3wElem : ElementNode :=
  { name := "Button", coordinates := { x := 6, y := 12 },
    bounding_box := { x1 := 1, y1 := 2, x2 := 11, y2 := 22 },
    class_name := "android.widget.Button", clickable := false, focusable := false }

/-- C3 amended witness: nonnegativity at a concrete extraction. -/
theorem output_coords_nonneg_witness :
    0 ≤ c3wElem.bounding_box.x1 ∧ 0 ≤ c3wElem.bounding_box.y1 ∧
    0 ≤ c3wElem.bounding_box.x2 ∧ 0 ≤ c3wElem.bounding_box.y2 :=
  output_coords_nonneg c3wRoot [c3wElem] c3wElem rfl (List.Mem.head _)

/-- C4 (confirmed): a node is interactive exactly when its focusable
attribute is `"true"`, or its clickable attribute is `"true"`, or its
class attribute is a member of `INTERACTIVE_CLASSES`; nothing else makes
it interactive, and the predicate is a pure boolean function. -/
theorem is_interactive_iff :
    ∀ n : RawNode, is_interactive n = true ↔
      (n.attrs.focusable = some "true" ∨ n.attrs.clickable = some "true" ∨
       ∃ c, n.attrs.className = some c ∧ c ∈ INTERACTIVE_CLASSES) := by
  intro n
  unfold is_interactive
  match hc : n.attrs.className with
  | none => simp [hc]
  | some c => simp [hc, or_assoc]

/-- A node with no text, no description, and a class with a non-empty last
dot-segment. -/
def c5Node : RawNode := .mk { className := some "com.example.widget.Button" } []

/-- A node whose class attribute is present but empty. -/
def c5EmptyClassNode : RawNode := .mk { className := some "" } []

/-- C5 counterexample: `get_element_name` CAN return the empty string: a
node with no text, no description, no text children, and an empty `class`
attribute resolves to `""` (the last dot-segment of `""`), so the result
is not always non-empty. -/
theorem empty_class_yields_empty_name :
    get_element_name c5EmptyClassNode = Except.ok "" := rfl

/-- C5 (amended): the fallback is the last dot-segment of the class
attribute (`"Unknown"` when the attribute is missing), so the resolved
name is non-empty whenever that last dot-segment is non-empty; in
particular class `com.example.widget.Button` resolves to `"Button"`. -/
theorem element_name_fallback_amended :
    (∀ (n : RawNode) (s : String), get_element_name n = Except.ok s →
       lastSeg (n.attrs.className.getD "Unknown") ≠ "" → s ≠ "") ∧
    get_element_name c5Node = Except.ok "Button" := by
  constructor
  · intro n s h hseg
    rcases get_element_name_cases h with rfl | hne
    · exact hseg
    · exact hne
  · rfl

/-- C5 amended witness: the non-emptiness guarantee at the concrete
`Button` node. -/
theorem element_name_fallback_amended_witness :
    lastSeg (c5Node.attrs.className.getD "Unknown") ≠ "" ∧ ("Button" : String) ≠ "" :=
  ⟨by decide, element_name_fallback_amended.1 c5Node "Button"
      element_name_fallback_amended.2 (by decide)⟩

/-- A node with bounds `[10,20][110,220]`. -/
def c6Node : RawNode := .mk { bounds := some "[10,20][110,220]" } []

/-- C6 (confirmed): bounds `[10,20][110,220]` extract to (10,20,110,220),
whose center is (60,120), and in general the center is the coordinate-wise
floor of the average of the corners. -/
theorem extract_box_and_center_example :
    extract_coordinates c6Node = Except.ok (some (10, 20, 110, 220)) ∧
    get_center_coordinates (10, 20, 110, 220) = (60, 120) ∧
    (∀ x1 y1 x2 y2 : ℤ, get_center_coordinates (x1, y1, x2, y2) =
      (⌊((x1 : ℚ) + (x2 : ℚ)) / 2⌋, ⌊((y1 : ℚ) + (y2 : ℚ)) / 2⌋)) := by
  refine ⟨rfl, rfl, ?_⟩
  intro x1 y1 x2 y2
  simp only [get_center_coordinates]
  rw [fdiv_two_eq_floor, fdiv_two_eq_floor]
  push_cast
  rfl

/-- C7 counterexample: Python's `int()` truncates toward zero, it does not
floor: on the box (-1,-1,1,1) with scale 1/2 and padding 15 the code
yields 0 + 15 = 15 for the first coordinate where flooring would yield
-1 + 15 = 14. -/
theorem truncation_differs_from_floor_on_negative_input :
    adjusted_box { x1 := -1, y1 := -1, x2 := 1, y2 := 1 } (1/2) 15 ≠
    spec_scale_and_translate { x1 := -1, y1 := -1, x2 := 1, y2 := 1 } (1/2) 15 := by
  unfold adjusted_box spec_scale_and_translate pyInt
  norm_num

/-- C7 (amended): on nonnegative coordinates and a nonnegative scale —
the only inputs the pipeline produces — truncation agrees with flooring,
so each coordinate is scaled, floored and shifted by the padding; the
spec's concrete example holds as stated. -/
theorem scale_and_translate_amended :
    (∀ (b : BoundingBox) (scale : ℚ) (pad : ℤ),
       0 ≤ b.x1 → 0 ≤ b.y1 → 0 ≤ b.x2 → 0 ≤ b.y2 → 0 ≤ scale →
       adjusted_box b scale pad = spec_scale_and_translate b scale pad) ∧
    adjusted_box { x1 := 0, y1 := 0, x2 := 100, y2 := 100 } (1/2) 15 =
      { x1 := 15, y1 := 15, x2 := 65, y2 := 65 } := by
  constructor
  · intro b scale pad h1 h2 h3 h4 hs
    unfold adjusted_box spec_scale_and_translate pyInt
    have m1 : ¬((b.x1 : ℚ) * scale < 0) := not_lt.mpr (mul_nonneg (by exact_mod_cast h1) hs)
    have m2 : ¬((b.y1 : ℚ) * scale < 0) := not_lt.mpr (mul_nonneg (by exact_mod_cast h2) hs)
    have m3 : ¬((b.x2 : ℚ) * scale < 0) := not_lt.mpr (mul_nonneg (by exact_mod_cast h3) hs)
    have m4 : ¬((b.y2 : ℚ) * scale < 0) := not_lt.mpr (mul_nonneg (by exact_mod_cast h4) hs)
    rw [if_neg m1, if_neg m2, if_neg m3, if_neg m4]
  · unfold adjusted_box pyInt
    norm_num

/-- C7 amended witness: the agreement at the spec's concrete example. -/
theorem scale_and_translate_amended_witness :
    adjusted_box { x1 := 0, y1 := 0, x2 := 100, y2 := 100 } (1/2) 15 =
    spec_scale_and_translate { x1 := 0, y1 := 0, x2 := 100, y2 := 100 } (1/2) 15 :=
  scale_and_translate_amended.1 { x1 := 0, y1 := 0, x2 := 100, y2 := 100 } (1/2) 15
    (by norm_num) (by norm_num) (by norm_num) (by norm_num) (by norm_num)

/-- C8 counterexample: the label's x coordinate is NOT clamped into
[0, canvas_width - 1 - label_width]: for left = 200 on a canvas of width
100 with a label of width 10 the code keeps label_x1 = 200 (only the
right edge x2 is clamped). -/
theorem label_x_not_upper_clamped :
    ¬((label_rect 200 50 10 10 100).x1 ≤ 100 - 1 - 10) := by decide

/-- C8 (amended): the label position is floored at 0 on both axes
(x1 = max(left, 0), y1 = max(top - label_height - 4, 0)) and its right
edge x2 is clamped to at most canvas_width - 1, but x1 itself is not
clamped from above and the bottom edge y2 = y1 + label_height + 4 is not
clamped at all, so the label can overflow the right and bottom canvas
edges; a box at the canvas's top-left corner still yields a label with no
negative coordinates. -/
theorem label_position_amended :
    (∀ left top lw lh width : ℤ,
       0 ≤ (label_rect left top lw lh width).x1 ∧
       (label_rect left top lw lh width).x1 = max left 0 ∧
       (label_rect left top lw lh width).y1 = max (top - lh - 4) 0 ∧
       (label_rect left top lw lh width).x2 ≤ width - 1 ∧
       (label_rect left top lw lh width).y2 =
         (label_rect left top lw lh width).y1 + lh + 4) ∧
    label_rect 0 0 30 10 430 = { x1 := 0, y1 := 0, x2 := 34, y2 := 14 } := by
  constructor
  · intro left top lw lh width
    exact ⟨le_max_right _ _, rfl, rfl, min_le_right _ _, rfl⟩
  · decide

/-- A visible, enabled but non-interactive node standing between the two
interactive ones. -/
def c9Skip : RawNode :=
  .mk { className := some "android.view.View", bounds := some "[0,0][5,5]",
        visibleToUser := some "true", enabled := some "true" } []

/-- First interactive node of the C9 snapshot. -/
def c9A : RawNode :=
  .mk { className := some "android.widget.Button", bounds := some "[0,0][10,10]",
        visibleToUser := some "true", enabled := some "true" } []

/-- Second interactive node of the C9 snapshot. -/
def c9B : RawNode :=
  .mk { className := some "android.widget.EditText", bounds := some "[20,20][40,60]",
        visibleToUser := some "true", enabled := some "true" } []

/-- Snapshot with two interactive nodes and one skipped node. -/
def c9Root : RawNode := .mk {} [c9A, c9Skip, c9B]

/-- The extraction output for `c9Root`. -/
def c9List : List ElementNode :=
  [{ name := "Button", coordinates := { x := 5, y := 5 },
     bounding_box := { x1 := 0, y1 := 0, x2 := 10, y2 := 10 },
     class_name := "android.widget.Button", clickable := false, focusable := false },
   { name := "EditText", coordinates := { x := 30, y := 40 },
     bounding_box := { x1 := 20, y1 := 20, x2 := 40, y2 := 60 },
     class_name := "android.widget.EditText", clickable := false, focusable := false }]

/-- C9 (confirmed): the indices attached by `get_ui_elements_info` are
exactly 0..n-1, and the output list is the traversal-ordered sequence of
per-node results over the selected nodes; extraction is a pure function
of the snapshot, so re-running it yields the identical list by
construction. -/
theorem extraction_indices_and_order :
    ∀ (root : RawNode) (l : List ElementNode),
      get_ui_elements root = Except.ok l →
      (elements_info l).map Prod.fst = List.range l.length ∧
      l = (findNodes root).filterMap stepResult := by
  intro root l h
  constructor
  · unfold elements_info
    rw [List.enum_eq_enumFrom, List.enumFrom_map_fst, List.range_eq_range']
  · exact core_ok_filterMap (get_ui_elements_ok h)

/-- C9 witness: indices and order at a concrete three-node snapshot. -/
theorem extraction_indices_and_order_witness :
    (elements_info c9List).map Prod.fst = List.range c9List.length ∧
    c9List = (findNodes c9Root).filterMap stepResult :=
  extraction_indices_and_order c9Root c9List rfl

/-- C10 (confirmed): every output element's center lies inside its
bounding box, coordinate-wise between the box corners. -/
theorem center_within_box :
    ∀ (root : RawNode) (l : List ElementNode) (e : ElementNode),
      get_ui_elements root = Except.ok l → e ∈ l →
      min e.bounding_box.x1 e.bounding_box.x2 ≤ e.coordinates.x ∧
      e.coordinates.x ≤ max e.bounding_box.x1 e.bounding_box.x2 ∧
      min e.bounding_box.y1 e.bounding_box.y2 ≤ e.coordinates.y ∧
      e.coordinates.y ≤ max e.bounding_box.y1 e.bounding_box.y2 := by
  intro root l e hok hmem
  obtain ⟨n, hn⟩ := core_mem_of_ok (get_ui_elements_ok hok) hmem
  obtain ⟨x1, y1, x2, y2, hbox, hcoord⟩ := node_step_some_shape hn
  rw [hbox, hcoord]
  have hx := fdiv_two_between (x1 : ℤ) (x2 : ℤ)
  have hy := fdiv_two_between (y1 : ℤ) (y2 : ℤ)
  exact ⟨hx.1, hx.2, hy.1, hy.2⟩

/-- An interactive node with bounds `[3,4][9,16]`. -/
def c10Node : RawNode :=
  .mk { className := some "android.widget.Button", bounds := some "[3,4][9,16]",
        visibleToUser := some "true", enabled := some "true" } []

/-- Snapshot holding only `c10Node`. -/
def c10Root : RawNode := .mk {} [c10Node]

/-- The element extracted from `c10Node`: center (6,10). -/
def c10Elem : ElementNode :=
  { name := "Button", coordinates := { x := 6, y := 10 },
    bounding_box := { x1 := 3, y1 := 4, x2 := 9, y2 := 16 },
    class_name := "android.widget.Button", clickable := false, focusable := false }

/-- C10 witness: the center-in-box property at a concrete extraction. -/
theorem center_within_box_witness :
    min c10Elem.bounding_box.x1 c10Elem.bounding_box.x2 ≤ c10Elem.coordinates.x ∧
    c10Elem.coordinates.x ≤ max c10Elem.bounding_box.x1 c10Elem.bounding_box.x2 ∧
    min c10Elem.bounding_box.y1 c10Elem.bounding_box.y2 ≤ c10Elem.coordinates.y ∧
    c10Elem.coordinates.y ≤ max c10Elem.bounding_box.y1 c10Elem.bounding_box.y2 :=
  center_within_box c10Root [c10Elem] c10Elem rfl (List.Mem.head _)
